import Mathlib

/-!
Shallow embedding of the `state-machine` Rust crate (modules
`machine/state.rs` and `machine/backoff.rs`) and proofs about its
execution engine.

Rust step functions have type `fn(&mut T) -> Result<(), Box<dyn Error>>`:
they may mutate the shared data and report an error message.  We model
them as `σ → Option String × σ`, where the first component is `some msg`
exactly when the Rust function returns `Err` (`msg` is the error's
display string) and the second component is the shared data after the
call.  Rust panics are modelled as explicit outcomes.
-/

namespace Machine

/-- Model of the Rust `StateFunction<T>` type alias: a step function that
may mutate the shared data of type `σ` and may fail with a message. -/
abbrev StateFunction (σ : Type) : Type := σ → Option String × σ

/-- Model of `enum State` from `machine/state.rs`.  The `Choice` variant
carries a zero-argument predicate `fn() -> bool`, which we model as the
boolean it evaluates to; `Sleep` carries its duration in seconds. -/
inductive State where
  | task
  | choice (cond : Bool)
  | sleep (secs : Nat)
  | pass
  | parallel
  | succeed
  | fail
  | map
  | customState
deriving Repr, DecidableEq

/-- Model of `struct ErrorBlock<T>`: a catch-table entry. -/
structure ErrorBlock (σ : Type) where
  error_equals : List String
  next : StateFunction σ

/-- Model of `struct StateNode<'a, T>`.  The Rust field `end` is a Lean
keyword, so it is written `end_` here. -/
structure StateNode (σ : Type) where
  id : String
  state : State
  state_function : StateFunction σ
  next : Option (StateFunction σ)
  catch_ : Option (List (ErrorBlock σ))
  retry : Option (List String)
  invocation_count : Int
  end_ : Option Bool

/-- Model of `StateNode::new`: builds a node with `invocation_count = 0`. -/
def StateNode.new (id : String) (state : State) (state_function : StateFunction σ)
    (next : Option (StateFunction σ)) (catch_ : Option (List (ErrorBlock σ)))
    (retry : Option (List String)) (end_ : Option Bool) : StateNode σ :=
  { id := id, state := state, state_function := state_function,
    invocation_count := 0, catch_ := catch_, retry := retry, next := next, end_ := end_ }

/-- Model of `StateNode::execute`: runs the node's work according to its
state kind.  `Task` always runs the work; `Choice` runs it only when the
predicate holds; `Sleep` blocks (irrelevant to the data) and every other
kind is a no-op. -/
def StateNode.execute (node : StateNode σ) (d : σ) : Option String × σ :=
  match node.state with
  | State.task => node.state_function d
  | State.choice c => if c then node.state_function d else (none, d)
  | State.sleep _ => (none, d)
  | State.pass => (none, d)
  | State.parallel => (none, d)
  | State.succeed => (none, d)
  | State.fail => (none, d)
  | State.map => (none, d)
  | State.customState => (none, d)

/-- Result of `exponential_backoff` from `machine/backoff.rs`: the Rust
function returns `Ok(())`, returns `Err(e)`, or panics (via
`unwrap`/`unwrap_or_else`); a panic carries its message. -/
inductive BackoffResult (ε : Type) where
  | ok
  | err (e : ε)
  | panicked (msg : String)
deriving Repr, DecidableEq

/-- Whether a backoff result is a panic. -/
def BackoffResult.isPanicked : BackoffResult ε → Bool
  | BackoffResult.panicked _ => true
  | _ => false

/-- Model of the `while _retries < max_retries` loop in
`exponential_backoff`: the fuel is the loop bound, the result records
whether some in-loop invocation succeeded, together with the data after
the last invocation made. -/
def backoffLoop (op : σ → Option ε × σ) : Nat → σ → Bool × σ
  | 0, d => (false, d)
  | n + 1, d =>
    match op d with
    | (none, d') => (true, d')
    | (some _, d') => backoffLoop op n d'

/-- Model of `exponential_backoff` from `machine/backoff.rs`.
`retries.unwrap()` panics when `retries` is `None`.  The `ifelse!` macro
prints a warning when the supplied budget exceeds 5 and leaves
`max_retries` at its default 5; otherwise it assigns the supplied budget.
After the loop, the Rust source runs `operation(data)` once more and
calls `.err().unwrap_or_else(|| panic!(..))` on it: a final success
therefore panics.  Delays between attempts do not affect the data and
are not modelled. -/
def exponential_backoff (op : σ → Option ε × σ) (d : σ) (retries : Option Int) :
    BackoffResult ε × σ :=
  match retries with
  | none => (BackoffResult.panicked "called Option::unwrap on a None value", d)
  | some r =>
    let max_retries : Int := if r > 5 then 5 else r
    match backoffLoop op max_retries.toNat d with
    | (true, d') => (BackoffResult.ok, d')
    | (false, d') =>
      match op d' with
      | (some e, d'') => (BackoffResult.err e, d'')
      | (none, d'') =>
        (BackoffResult.panicked
          "the operation could not be completed due to an unrecoverable error", d'')

/-- Outcome of `StateMachine::execute` / a whole pass: success, a
`StateMachineError` with its message, or a Rust panic propagated from
the backoff primitive. -/
inductive ExecOutcome where
  | ok
  | err (message : String)
  | panicked (msg : String)
deriving Repr, DecidableEq

/-- Rust's `format!("{:?}", self.error_string)` on an `Option<String>`:
the `Debug` rendering (inner escapes are not needed for the strings used
here). -/
def optionDebug : Option String → String
  | none => "None"
  | some s => "Some(\"" ++ s ++ "\")"

/-- Model of `struct StateMachine<'a, T>`.  The shared data sits behind a
mutable borrow in Rust; here it is passed explicitly to the operations.
`node_ids` models the `HashSet<String>` used for duplicate detection. -/
structure StateMachine (σ : Type) where
  id : String
  nodes : List (StateNode σ)
  node_ids : List String
  retries : Int
  error_string : Option String

/-- Model of `StateMachine::new`: empty node list, no pending error. -/
def StateMachine.new (σ : Type) (id : String) (retries : Int) : StateMachine σ :=
  { id := id, nodes := [], node_ids := [], retries := retries, error_string := none }

/-- Model of `StateMachine::step`: registering a node with a duplicate id
panics, modelled as `none`; otherwise the node built by `StateNode.new`
is appended. -/
def StateMachine.step (m : StateMachine σ) (id : String) (state : State)
    (state_function : StateFunction σ) (next : Option (StateFunction σ))
    (catch_ : Option (List (ErrorBlock σ))) (retry : Option (List String))
    (end_ : Option Bool) : Option (StateMachine σ) :=
  if id ∈ m.node_ids then none
  else some { m with
    node_ids := id :: m.node_ids,
    nodes := m.nodes ++ [StateNode.new id state state_function next catch_ retry end_] }

/-- Model of the catch-resolution loop inside `StateMachine::execute`
(state.rs lines 245-260): every entry whose `error_equals` contains the
pending message runs its recovery function in table order; the first
recovery failure aborts with the new error message, otherwise all
matching recoveries run and the loop falls through. -/
def catchLoop (pending : String) : List (ErrorBlock σ) → σ → Option String × σ
  | [], d => (none, d)
  | eb :: rest, d =>
    if pending ∈ eb.error_equals then
      match eb.next d with
      | (none, d') => catchLoop pending rest d'
      | (some e, d') => (some e, d')
    else catchLoop pending rest d

/-- Model of the catch-resolution step of one `execute` iteration
(state.rs lines 245-260): it fires only when an error is pending and the
node has a catch table, in which case a recovery failure aborts
(`Sum.inl` carries the new pending message and the data); in every other
case the iteration falls through unchanged. -/
def catchPhase (es : Option String) (cat : Option (List (ErrorBlock σ))) (d : σ) :
    (String × σ) ⊕ σ :=
  match es, cat with
  | some e, some cbs =>
    match catchLoop e cbs d with
    | (some e₂, d₁) => Sum.inl (e₂, d₁)
    | (none, d₁) => Sum.inr d₁
  | _, _ => Sum.inr d

/-- Model of the tail of one loop iteration of `StateMachine::execute`
(state.rs lines 281-301), after the successor override: run
`node.execute`; on failure consult `retry` and possibly invoke the
backoff primitive, whose result is printed and otherwise ignored (a
backoff panic aborts everything); on success apply the (dead)
post-`end` check.  `Sum.inl` is a return from `execute`, `Sum.inr d`
continues the pass with data `d`. -/
def nodeExecPhase (retries : Int) (node : StateNode σ) (es : Option String) (d : σ) :
    (ExecOutcome × σ × Option String) ⊕ σ :=
  match node.execute d with
  | (none, d₁) =>
    if node.end_ = some true then Sum.inl (ExecOutcome.ok, d₁, es) else Sum.inr d₁
  | (some e, d₁) =>
    match node.retry with
    | some ts =>
      if e ∈ ts then
        match exponential_backoff node.execute d₁ (some retries) with
        | (BackoffResult.panicked msg, d₂) => Sum.inl (ExecOutcome.panicked msg, d₂, es)
        | (_, d₂) => Sum.inl (ExecOutcome.err e, d₂, es)
      else Sum.inl (ExecOutcome.err e, d₁, es)
    | none => Sum.inl (ExecOutcome.err e, d₁, es)

/-- Model of the successor-override step (state.rs lines 262-278)
followed by `nodeExecPhase`: when `node.next` is set it runs first; its
failure sets the pending error and aborts the pass with the
debug-formatted message. -/
def nodeTail (retries : Int) (node : StateNode σ) (es : Option String) (d : σ) :
    (ExecOutcome × σ × Option String) ⊕ σ :=
  match node.next with
  | some f =>
    match f d with
    | (some e, d₁) => Sum.inl (ExecOutcome.err (optionDebug (some e)), d₁, some e)
    | (none, d₁) => nodeExecPhase retries node es d₁
  | none => nodeExecPhase retries node es d

/-- Model of the `for node in &mut self.nodes` loop of
`StateMachine::execute` (state.rs lines 225-302), threading the pending
`error_string` and the shared data.  The result is the pass outcome, the
final shared data and the final `error_string` field. -/
def executeLoop (mid : String) (retries : Int) :
    List (StateNode σ) → Option String → σ → ExecOutcome × σ × Option String
  | [], es, d => (ExecOutcome.ok, d, es)
  | node :: rest, es, d =>
    if node.end_ = some true then (ExecOutcome.ok, d, es)
    else if node.invocation_count = 2 then
      (ExecOutcome.err ("state machine " ++ mid ++ " failed for step " ++ node.id ++
        ". Step have been invoked upto three times"), d, es)
    else if es.isSome && node.catch_.isNone then
      (ExecOutcome.err (optionDebug es), d, es)
    else
      match catchPhase es node.catch_ d with
      | Sum.inl (e₂, d₁) => (ExecOutcome.err (optionDebug (some e₂)), d₁, some e₂)
      | Sum.inr d₁ =>
        match nodeTail retries node es d₁ with
        | Sum.inl out => out
        | Sum.inr d₂ => executeLoop mid retries rest es d₂

/-- Model of `StateMachine::execute`.  In Rust the machine mutates its
`error_string` field and the borrowed shared data; here the new values
are returned alongside the outcome. -/
def StateMachine.execute (m : StateMachine σ) (d : σ) : ExecOutcome × σ × Option String :=
  executeLoop m.id m.retries m.nodes m.error_string d

/-- Model of the scan loop of `StateMachine::execute_by_id` (state.rs
lines 186-199): the first node whose id matches runs via
`StateNode.execute`; an error is wrapped into a `StateMachineError`
carrying `err.to_string()`, a success breaks the scan. -/
def executeByIdLoop (node_id : String) :
    List (StateNode σ) → σ → Except String Unit × σ
  | [], d => (Except.ok (), d)
  | node :: rest, d =>
    if node.id = node_id then
      match node.execute d with
      | (some e, d') => (Except.error e, d')
      | (none, d') => (Except.ok (), d')
    else executeByIdLoop node_id rest d

/-- Model of `StateMachine::execute_by_id`.  It never touches
`error_string`, the node list, or any node field, so the machine value
is unchanged and only the outcome and the shared data are returned. -/
def StateMachine.execute_by_id (m : StateMachine σ) (node_id : String) (d : σ) :
    Except String Unit × σ :=
  executeByIdLoop node_id m.nodes d

/-- Variant of `executeLoop` with the repeated-invocation guard
(state.rs lines 230-236) removed, used to state that the guard is dead
code on machines whose nodes all have `invocation_count = 0`. -/
def executeLoopNoGuard (mid : String) (retries : Int) :
    List (StateNode σ) → Option String → σ → ExecOutcome × σ × Option String
  | [], es, d => (ExecOutcome.ok, d, es)
  | node :: rest, es, d =>
    if node.end_ = some true then (ExecOutcome.ok, d, es)
    else if es.isSome && node.catch_.isNone then
      (ExecOutcome.err (optionDebug es), d, es)
    else
      match catchPhase es node.catch_ d with
      | Sum.inl (e₂, d₁) => (ExecOutcome.err (optionDebug (some e₂)), d₁, some e₂)
      | Sum.inr d₁ =>
        match nodeTail retries node es d₁ with
        | Sum.inl out => out
        | Sum.inr d₂ => executeLoopNoGuard mid retries rest es d₂

/-- `StateMachine.execute` with the repeated-invocation guard removed. -/
def StateMachine.executeNoGuard (m : StateMachine σ) (d : σ) :
    ExecOutcome × σ × Option String :=
  executeLoopNoGuard m.id m.retries m.nodes m.error_string d

/-- Machines reachable through the crate's public operations:
`StateMachine::new`, successful `step` registrations, and `execute`
(which updates the `error_string` field).  `execute_by_id` takes `&mut
self` but writes no field of the machine, so it does not change the
machine value and needs no constructor. -/
inductive Reachable : StateMachine σ → Prop where
  | new : ∀ (id : String) (retries : Int), Reachable (StateMachine.new σ id retries)
  | step : ∀ (m m' : StateMachine σ) id state f next catch_ retry end_,
      Reachable m → m.step id state f next catch_ retry end_ = some m' → Reachable m'
  | exec : ∀ (m : StateMachine σ) (d : σ), Reachable m →
      Reachable { m with error_string := (m.execute d).2.2 }

/-! Concrete instances used to settle the claims.  The shared data is a
plain counter; for the backoff operations it counts the number of
invocations made so far. -/

/-- An operation that fails on every call (with data counting calls). -/
def alwaysFailOp : Nat → Option String × Nat := fun n => (some "E", n + 1)

/-- An operation that fails on its first two calls and succeeds from the
third call on. -/
def failTwiceOp : Nat → Option String × Nat :=
  fun n => if n < 2 then (some "E", n + 1) else (none, n + 1)

/-- An operation that fails on its first three calls and succeeds from
the fourth call on: with a budget of 3 every in-loop attempt fails and
the final post-loop invocation succeeds. -/
def lateSuccessOp : Nat → Option String × Nat :=
  fun n => if n < 3 then (some "E", n + 1) else (none, n + 1)

/-- Work function of node A in `tests/basic.rs`: `counter += 1`. -/
def c1fnA : StateFunction Int := fun n => (none, n + 1)

/-- Work function of node B in `tests/basic.rs`: `counter += 100`. -/
def c1fnB : StateFunction Int := fun n => (none, n + 100)

/-- Work function of node C in `tests/basic.rs`: `counter *= 1`. -/
def c1fnC : StateFunction Int := fun n => (none, n * 1)

/-- Work function of node D in `tests/basic.rs`: `counter *= 5`. -/
def c1fnD : StateFunction Int := fun n => (none, n * 5)

/-- The machine of `tests/basic.rs`: tasks A, B, C, D registered in that
order, D flagged `end = Some(true)`, all other options unset. -/
def c1Machine : StateMachine Int :=
  { id := "MachineA011",
    nodes := [
      StateNode.new "NodeA" State.task c1fnA none none none none,
      StateNode.new "NodeB" State.task c1fnB none none none none,
      StateNode.new "NodeC" State.task c1fnC none none none none,
      StateNode.new "NodeD" State.task c1fnD none none none (some true)],
    node_ids := ["NodeD", "NodeC", "NodeB", "NodeA"],
    retries := 3,
    error_string := none }

/-- A terminal task node used as a concrete witness input. -/
def c5Node : StateNode Int :=
  StateNode.new "NodeD" State.task c1fnD none none none (some true)

/-- Recovery function for a catch entry that never matches. -/
def c3Recovery : StateFunction Nat := fun n => (none, n + 7)

/-- A catch table whose single entry catches only the signature
`OTHER`. -/
def c3Cbs : List (ErrorBlock Nat) := [{ error_equals := ["OTHER"], next := c3Recovery }]

/-- A task node carrying the non-matching catch table `c3Cbs` and a work
function that increments the counter. -/
def c3Node : StateNode Nat :=
  StateNode.new "N0" State.task (fun n => (none, n + 1)) none (some c3Cbs) none none

/-- A machine holding only `c3Node`, with pending error `E` (as left by
an earlier failed pass). -/
def c3Machine : StateMachine Nat :=
  { id := "M3", nodes := [c3Node], node_ids := ["N0"], retries := 3,
    error_string := some "E" }

/-- A work function that fails with `E` on its first call (counter 0)
and succeeds afterwards, so the backoff retry of the node recovers. -/
def c4Work : StateFunction Nat :=
  fun n => if n = 0 then (some "E", 1) else (none, n + 1)

/-- A task node whose failure signature `E` is listed in its
`retry` triggers. -/
def c4Node : StateNode Nat :=
  StateNode.new "N" State.task c4Work none none (some ["E"]) none

/-- A recovery function for the pending error `E`: adds 10. -/
def c9Recovery : StateFunction Nat := fun n => (none, n + 10)

/-- A task node whose catch table matches the pending error `E` with the
succeeding recovery `c9Recovery`, and whose own work adds 1. -/
def c9Node1 : StateNode Nat :=
  StateNode.new "R" State.task (fun n => (none, n + 1)) none
    (some [{ error_equals := ["E"], next := c9Recovery }]) none none

/-- A task node without a catch table, work adds 100. -/
def c9Node2 : StateNode Nat :=
  StateNode.new "P" State.task (fun n => (none, n + 100)) none none none none

/-- A task node with an (empty) catch table, work adds 1000. -/
def c9Node3 : StateNode Nat :=
  StateNode.new "C2" State.task (fun n => (none, n + 1000)) none (some []) none none

/-- Machine with pending error `E`: a recovering node followed by a node
without a catch table. -/
def c9bMachine : StateMachine Nat :=
  { id := "M9", nodes := [c9Node1, c9Node2], node_ids := ["P", "R"], retries := 3,
    error_string := some "E" }

/-- Machine with pending error `E`: a recovering node followed by a node
that has a catch table, so the pass can succeed with the error still
pending. -/
def c9cMachine : StateMachine Nat :=
  { id := "M9c", nodes := [c9Node1, c9Node3], node_ids := ["C2", "R"], retries := 3,
    error_string := some "E" }

/-- A task node with id `X`, work adds 5; its catch table, retry list and
terminal flag are deliberately populated to show `execute_by_id` ignores
them. -/
def c7Node : StateNode Nat :=
  StateNode.new "X" State.task (fun n => (none, n + 5)) none (some []) (some ["E"]) (some true)

/-- A machine holding only `c7Node`. -/
def c7Machine : StateMachine Nat :=
  { id := "M7", nodes := [c7Node], node_ids := ["X"], retries := 3,
    error_string := none }

/-! Theorems. -/

/-- C5: a node with `is_terminal = true` reached during `execute` stops
the pass immediately with overall success; its catch resolution,
successor override and work function are never run, and the shared data
and pending error are returned unchanged. -/
theorem c5_terminal_precheck (σ : Type) (mid : String) (r : Int)
    (node : StateNode σ) (rest : List (StateNode σ)) (es : Option String) (d : σ)
    (h : node.end_ = some true) :
    executeLoop mid r (node :: rest) es d = (ExecOutcome.ok, d, es) := by
  simp [executeLoop, h]

/-- Witness for `c5_terminal_precheck` at the terminal node of the
`tests/basic.rs` machine with counter 5. -/
theorem c5_terminal_precheck_witness :
    executeLoop "MachineA011" 3 [c5Node] none (5 : Int) = (ExecOutcome.ok, 5, none) :=
  c5_terminal_precheck Int "MachineA011" 3 c5Node [] none 5 rfl

/-- C1, counterexample: on the A, B, C, D machine of `tests/basic.rs`
with initial counter 5, `execute` leaves the counter at 106, not 530 —
the terminal node D is cut off by the pre-check before its work runs. -/
theorem c1_counterexample :
    (c1Machine.execute 5).2.1 = 106 ∧ (c1Machine.execute 5).2.1 ≠ 530 := by
  decide

/-- C1, amended: `execute` on the A, B, C, D machine stops at the
terminal node D before running it, returning success with counter
`(5 + 1 + 100) * 1 = 106` and no pending error. -/
theorem c1_terminal_node_never_runs :
    c1Machine.execute 5 = (ExecOutcome.ok, 106, none) := by
  decide

/-- C2, counterexample: with a caller-supplied budget of 10 and an
always-failing operation, `exponential_backoff` makes 6 invocations
(5 in-loop retries plus the final one), not the 11 the caller's budget
would give. -/
theorem c2_counterexample :
    (exponential_backoff alwaysFailOp 0 (some 10)).2 = 6 ∧
    (exponential_backoff alwaysFailOp 0 (some 10)).2 ≠ 11 := by
  decide

/-- C2, amended: when the caller supplies a retry budget greater than 5,
the warning is printed but the caller's larger value is ignored: the
attempt cap stays at the default 5, so the call behaves exactly as with
budget 5. -/
theorem c2_budget_clamped_to_five (σ ε : Type) (op : σ → Option ε × σ) (d : σ)
    (r : Int) (h : r > 5) :
    exponential_backoff op d (some r) = exponential_backoff op d (some 5) := by
  simp [exponential_backoff, h]

/-- Witness for `c2_budget_clamped_to_five`: budget 10 on the
always-failing operation coincides with budget 5. -/
theorem c2_budget_clamped_to_five_witness :
    exponential_backoff alwaysFailOp 0 (some 10) =
      exponential_backoff alwaysFailOp 0 (some 5) :=
  c2_budget_clamped_to_five Nat String alwaysFailOp 0 10 (by norm_num)

/-- C10: whenever every in-loop attempt of `exponential_backoff` fails
but the final post-loop invocation succeeds, the function panics with
the `unwrap_or_else` message instead of returning a result. -/
theorem c10_late_success_panics (σ ε : Type) (op : σ → Option ε × σ)
    (d d₁ d₂ : σ) (r : Int)
    (hloop : backoffLoop op (if r > 5 then (5 : Int) else r).toNat d = (false, d₁))
    (hfinal : op d₁ = (none, d₂)) :
    exponential_backoff op d (some r) =
      (BackoffResult.panicked
        "the operation could not be completed due to an unrecoverable error", d₂) := by
  simp only [exponential_backoff]
  rw [hloop]
  simp [hfinal]

/-- Witness for `c10_late_success_panics`: an operation failing on its
first three calls with budget 3 drives the backoff into the panic. -/
theorem c10_late_success_panics_witness :
    exponential_backoff lateSuccessOp 0 (some 3) =
      (BackoffResult.panicked
        "the operation could not be completed due to an unrecoverable error", 4) :=
  c10_late_success_panics Nat String lateSuccessOp 0 3 4 3 (by decide) rfl

/-- The backoff loop on the always-failing operation exhausts its fuel,
incrementing the call counter once per iteration. -/
theorem backoffLoop_alwaysFail (k : Nat) : ∀ d : Nat,
    backoffLoop alwaysFailOp k d = (false, d + k) := by
  induction k with
  | zero => intro d; simp [backoffLoop]
  | succ k ih =>
    intro d
    simp only [backoffLoop, alwaysFailOp, ih (d + 1)]
    congr 1
    omega

/-- The backoff loop on the fail-twice operation succeeds on its third
invocation whenever it has fuel for at least three. -/
theorem backoffLoop_failTwice (k : Nat) :
    backoffLoop failTwiceOp (k + 3) 0 = (true, 3) := by
  simp [backoffLoop, failTwiceOp]

/-- C6, amended: on an operation that fails twice then succeeds, any
budget `N ≥ 3` yields success after exactly 3 invocations; on an
always-failing operation the call fails after `N` in-loop retries plus
one final invocation when `0 ≤ N ≤ 5`, but for `N > 5` the cap is
clamped to 5, so exactly 6 invocations are made, not `N + 1`. -/
theorem c6_backoff_invocation_counts :
    (∀ N : Int, 3 ≤ N →
      exponential_backoff failTwiceOp 0 (some N) = (BackoffResult.ok, 3)) ∧
    (∀ N : Int, 0 ≤ N → N ≤ 5 →
      exponential_backoff alwaysFailOp 0 (some N) =
        (BackoffResult.err "E", N.toNat + 1)) ∧
    (∀ N : Int, 5 < N →
      exponential_backoff alwaysFailOp 0 (some N) = (BackoffResult.err "E", 6)) := by
  refine ⟨?_, ?_, ?_⟩
  · intro N h
    have ht : ∃ k : Nat, (if N > 5 then (5 : Int) else N).toNat = k + 3 := by
      by_cases h5 : N > 5
      · exact ⟨2, by simp [h5]⟩
      · refine ⟨N.toNat - 3, ?_⟩
        rw [if_neg h5]
        omega
    obtain ⟨k, hk⟩ := ht
    simp only [exponential_backoff]
    rw [hk, backoffLoop_failTwice]
  · intro N h0 h5
    have hif : (if N > 5 then (5 : Int) else N) = N := by
      rw [if_neg]
      omega
    simp only [exponential_backoff, hif]
    rw [backoffLoop_alwaysFail N.toNat 0]
    simp [alwaysFailOp]
  · intro N h
    have hif : (if N > 5 then (5 : Int) else N) = 5 := by
      rw [if_pos h]
    simp only [exponential_backoff, hif]
    rw [show ((5 : Int)).toNat = 5 from rfl, backoffLoop_alwaysFail 5 0]
    simp [alwaysFailOp]

/-- C6, counterexample: with budget 6 and an always-failing operation,
`exponential_backoff` makes 6 invocations, not the `6 + 1 = 7` the claim
predicts. -/
theorem c6_counterexample :
    (exponential_backoff alwaysFailOp 0 (some 6)).2 = 6 ∧
    (exponential_backoff alwaysFailOp 0 (some 6)).2 ≠ 7 := by
  decide

/-- Witness for `c6_backoff_invocation_counts` at budgets 3, 2 and 7. -/
theorem c6_backoff_invocation_counts_witness :
    exponential_backoff failTwiceOp 0 (some 3) = (BackoffResult.ok, 3) ∧
    exponential_backoff alwaysFailOp 0 (some 2) = (BackoffResult.err "E", 3) ∧
    exponential_backoff alwaysFailOp 0 (some 7) = (BackoffResult.err "E", 6) :=
  ⟨c6_backoff_invocation_counts.1 3 (by norm_num),
   c6_backoff_invocation_counts.2.1 2 (by norm_num) (by norm_num),
   c6_backoff_invocation_counts.2.2 7 (by norm_num)⟩

/-- A catch table none of whose entries lists the pending message leaves
the data untouched and reports no recovery failure. -/
theorem catchLoop_no_match (e : String) :
    ∀ (cbs : List (ErrorBlock σ)) (d : σ), (∀ eb ∈ cbs, e ∉ eb.error_equals) →
    catchLoop e cbs d = (none, d) := by
  intro cbs
  induction cbs with
  | nil => intro d _; rfl
  | cons eb rest ih =>
    intro d h
    have he : e ∉ eb.error_equals := h eb (List.mem_cons_self eb rest)
    simp only [catchLoop, if_neg he]
    exact ih d fun x hx => h x (List.mem_cons_of_mem eb hx)

/-- C3, counterexample: a machine with pending error `E` whose only node
has a catch table catching only `OTHER` does not fail at that node — the
node runs normally and the whole pass returns success, with the error
still pending. -/
theorem c3_counterexample :
    (c3Machine.execute 0).1 = ExecOutcome.ok ∧
    (c3Machine.execute 0).1 ≠ ExecOutcome.err "E" := by
  decide

/-- C3, amended: when an error is pending and the current node has a
catch table none of whose entries contains the pending message, no
recovery runs, the node executes normally and the pass continues past it
with the pending error unchanged (it does not fail at that node). -/
theorem c3_nonmatching_catch_falls_through (σ : Type) (mid : String) (r : Int)
    (node : StateNode σ) (rest : List (StateNode σ)) (e : String) (d d₁ : σ)
    (cbs : List (ErrorBlock σ))
    (hend : node.end_ ≠ some true) (hcount : node.invocation_count ≠ 2)
    (hcatch : node.catch_ = some cbs)
    (hnomatch : ∀ eb ∈ cbs, e ∉ eb.error_equals)
    (hnext : node.next = none)
    (hwork : node.execute d = (none, d₁)) :
    executeLoop mid r (node :: rest) (some e) d =
      executeLoop mid r rest (some e) d₁ := by
  have hcl : catchLoop e cbs d = (none, d) := catchLoop_no_match e cbs d hnomatch
  simp [executeLoop, hend, hcount, hcatch, catchPhase, hcl, nodeTail, hnext,
    nodeExecPhase, hwork]

/-- Witness for `c3_nonmatching_catch_falls_through` on the node of
`c3Machine`. -/
theorem c3_nonmatching_catch_falls_through_witness :
    executeLoop "M3" 3 [c3Node] (some "E") 0 =
      executeLoop "M3" 3 ([] : List (StateNode Nat)) (some "E") 1 :=
  c3_nonmatching_catch_falls_through Nat "M3" 3 c3Node [] "E" 0 1 c3Cbs
    (by decide) (by decide) rfl (by decide) rfl rfl

/-- C4: when a node's work fails with a message listed in its retry
triggers, `execute` invokes the backoff primitive on the node (the
returned data is the data left by the backoff run), and as long as the
backoff returns — successfully or not — the pass still fails with the
node's original error message. -/
theorem c4_backoff_result_ignored (σ : Type) (mid : String) (r : Int)
    (node : StateNode σ) (rest : List (StateNode σ)) (d d₁ d₂ : σ) (e : String)
    (ts : List String) (bres : BackoffResult String)
    (hend : node.end_ ≠ some true) (hcount : node.invocation_count ≠ 2)
    (hnext : node.next = none)
    (hwork : node.execute d = (some e, d₁))
    (hretry : node.retry = some ts) (hmem : e ∈ ts)
    (hback : exponential_backoff node.execute d₁ (some r) = (bres, d₂))
    (hnp : bres.isPanicked = false) :
    executeLoop mid r (node :: rest) none d = (ExecOutcome.err e, d₂, none) := by
  cases bres with
  | panicked msg => simp [BackoffResult.isPanicked] at hnp
  | ok =>
    simp [executeLoop, hend, hcount, catchPhase, nodeTail, hnext, nodeExecPhase,
      hwork, hretry, hmem, hback]
  | err e' =>
    simp [executeLoop, hend, hcount, catchPhase, nodeTail, hnext, nodeExecPhase,
      hwork, hretry, hmem, hback]

/-- Witness for `c4_backoff_result_ignored`: the node `c4Node` fails
once with `E`, the backoff retry succeeds immediately, and the pass
still fails with `E`. -/
theorem c4_backoff_result_ignored_witness :
    executeLoop "M" 3 [c4Node] none 0 = (ExecOutcome.err "E", 2, none) :=
  c4_backoff_result_ignored Nat "M" 3 c4Node [] 0 1 2 "E" ["E"] BackoffResult.ok
    (by decide) (by decide) rfl rfl rfl (by decide) (by decide) rfl

/-- C9: a successful catch recovery does not clear the pending error:
(1) in general, a node whose catch resolution and work both succeed
passes the unchanged pending error on to the rest of the pass; (2) on
`c9bMachine` the later catch-less node then fails the pass with the old
error's (debug-wrapped) message; (3) on `c9cMachine`, where every node
after the recovering one has a catch table, the pass returns overall
success while the error `E` is still pending. -/
theorem c9_recovery_keeps_error_pending :
    (∀ (σ : Type) (mid : String) (r : Int) (node : StateNode σ)
      (rest : List (StateNode σ)) (e : String) (d d₁ d₂ : σ)
      (cbs : List (ErrorBlock σ)),
      node.end_ ≠ some true → node.invocation_count ≠ 2 →
      node.catch_ = some cbs → node.next = none →
      catchLoop e cbs d = (none, d₁) → node.execute d₁ = (none, d₂) →
      executeLoop mid r (node :: rest) (some e) d =
        executeLoop mid r rest (some e) d₂) ∧
    c9bMachine.execute 0 = (ExecOutcome.err "Some(\"E\")", 11, some "E") ∧
    c9cMachine.execute 0 = (ExecOutcome.ok, 1011, some "E") := by
  refine ⟨?_, by decide, by decide⟩
  intro σ mid r node rest e d d₁ d₂ cbs hend hcount hcatch hnext hcl hwork
  simp [executeLoop, hend, hcount, hcatch, catchPhase, hcl, nodeTail, hnext,
    nodeExecPhase, hwork]

/-- Witness for `c9_recovery_keeps_error_pending` on `c9Node1` with
pending error `E`. -/
theorem c9_recovery_keeps_error_pending_witness :
    executeLoop "M9" 3 [c9Node1] (some "E") 0 =
      executeLoop "M9" 3 ([] : List (StateNode Nat)) (some "E") 11 :=
  c9_recovery_keeps_error_pending.1 Nat "M9" 3 c9Node1 [] "E" 0 10 11
    [{ error_equals := ["E"], next := c9Recovery }]
    (by decide) (by decide) rfl rfl rfl rfl

/-- Scanning for an id that no node carries leaves the data untouched
and returns success. -/
theorem executeByIdLoop_no_match (node_id : String) (d : σ) :
    ∀ l : List (StateNode σ), (∀ n ∈ l, n.id ≠ node_id) →
    executeByIdLoop node_id l d = (Except.ok (), d) := by
  intro l
  induction l with
  | nil => intro _; rfl
  | cons node rest ih =>
    intro h
    have hne : node.id ≠ node_id := h node (List.mem_cons_self node rest)
    simp only [executeByIdLoop, if_neg hne]
    exact ih fun n hn => h n (List.mem_cons_of_mem node hn)

/-- Scanning a list whose first match is `node` runs exactly
`node.execute` and wraps its result. -/
theorem executeByIdLoop_found (node_id : String) (node : StateNode σ)
    (hid : node.id = node_id) :
    ∀ (pre rest : List (StateNode σ)) (d : σ), (∀ n ∈ pre, n.id ≠ node_id) →
    executeByIdLoop node_id (pre ++ node :: rest) d =
      (match node.execute d with
       | (some e, d') => (Except.error e, d')
       | (none, d') => (Except.ok (), d')) := by
  intro pre
  induction pre with
  | nil =>
    intro rest d _
    simp only [List.nil_append, executeByIdLoop, if_pos hid]
  | cons p ps ih =>
    intro rest d h
    have hne : p.id ≠ node_id := h p (List.mem_cons_self p ps)
    simp only [List.cons_append, executeByIdLoop, if_neg hne]
    exact ih rest d fun n hn => h n (List.mem_cons_of_mem p hn)

/-- C7: `execute_by_id` returns success without touching the data when
no node carries the id; when a node matches, only that node's state-kind
execution rule runs against the shared data — its catch table, retry
triggers and terminal flag are ignored — and a work failure is returned
wrapped with the underlying error's description. -/
theorem c7_execute_by_id_isolated (σ : Type) (m : StateMachine σ)
    (node_id : String) (d : σ) :
    ((∀ n ∈ m.nodes, n.id ≠ node_id) →
      m.execute_by_id node_id d = (Except.ok (), d)) ∧
    (∀ (pre : List (StateNode σ)) (node : StateNode σ) (rest : List (StateNode σ)),
      m.nodes = pre ++ node :: rest → node.id = node_id →
      (∀ n ∈ pre, n.id ≠ node_id) →
      m.execute_by_id node_id d =
        match node.execute d with
        | (some e, d') => (Except.error e, d')
        | (none, d') => (Except.ok (), d')) := by
  constructor
  · intro h
    exact executeByIdLoop_no_match node_id d m.nodes h
  · intro pre node rest hsplit hid hpre
    unfold StateMachine.execute_by_id
    rw [hsplit]
    exact executeByIdLoop_found node_id node hid pre rest d hpre

/-- Witness for `c7_execute_by_id_isolated`: on `c7Machine`, a missing
id is a no-op success and the id `X` runs only the node's work (its
catch table, retry list and terminal flag notwithstanding). -/
theorem c7_execute_by_id_isolated_witness :
    c7Machine.execute_by_id "Z" 0 = (Except.ok (), 0) ∧
    c7Machine.execute_by_id "X" 0 = (Except.ok (), 5) :=
  ⟨(c7_execute_by_id_isolated Nat c7Machine "Z" 0).1 (by decide),
   (c7_execute_by_id_isolated Nat c7Machine "X" 0).2 [] c7Node [] rfl rfl
     (by simp)⟩

/-- Every machine reachable through `new`, `step` and `execute` has all
node invocation counters at 0: `StateNode::new` initializes the counter
to 0 and no operation of the crate writes it. -/
theorem reachable_counts_zero :
    ∀ m : StateMachine σ, Reachable m → ∀ node ∈ m.nodes, node.invocation_count = 0 := by
  intro m hm
  induction hm with
  | new id retries =>
    intro node hn
    simp [StateMachine.new] at hn
  | step m m' id state f next catch_ retry end_ hr hstep ih =>
    intro node hn
    unfold StateMachine.step at hstep
    split at hstep
    · cases hstep
    · cases hstep
      rcases List.mem_append.mp hn with h1 | h2
      · exact ih node h1
      · rw [List.mem_singleton.mp h2]
        rfl
  | exec m d hr ih =>
    intro node hn
    exact ih node hn

/-- On a node list whose counters are all 0, the repeated-invocation
guard never fires, so `executeLoop` coincides with the guard-free
variant. -/
theorem executeLoop_eq_noGuard (mid : String) (r : Int) :
    ∀ nodes : List (StateNode σ), (∀ node ∈ nodes, node.invocation_count = 0) →
    ∀ (es : Option String) (d : σ),
    executeLoop mid r nodes es d = executeLoopNoGuard mid r nodes es d := by
  intro nodes
  induction nodes with
  | nil => intro _ es d; rfl
  | cons node rest ih =>
    intro h es d
    have h0 : node.invocation_count = 0 := h node (List.mem_cons_self node rest)
    have hrest : ∀ n ∈ rest, n.invocation_count = 0 :=
      fun n hn => h n (List.mem_cons_of_mem node hn)
    simp only [executeLoop, executeLoopNoGuard, h0]
    norm_num
    split
    · rfl
    · split
      · rfl
      · split
        · rfl
        · split
          · rfl
          · exact ih hrest es _

/-- C8: every node's `invocation_count` starts at 0 and no crate
operation increments it, so in every reachable machine the counter
invariant holds and the repeated-invocation guard of `execute` is dead
code: `execute` coincides with the guard-free `executeNoGuard`, and the
"invoked upto three times" error can never arise from the guard. -/
theorem c8_invocation_guard_dead (σ : Type) :
    (∀ m : StateMachine σ, Reachable m → ∀ node ∈ m.nodes,
      node.invocation_count = 0) ∧
    (∀ m : StateMachine σ, Reachable m → ∀ d : σ,
      m.execute d = m.executeNoGuard d) := by
  constructor
  · exact fun m hm => reachable_counts_zero m hm
  · intro m hm d
    exact executeLoop_eq_noGuard m.id m.retries m.nodes
      (reachable_counts_zero m hm) m.error_string d

/-- Witness for `c8_invocation_guard_dead` on a freshly constructed
machine. -/
theorem c8_invocation_guard_dead_witness :
    (∀ node ∈ (StateMachine.new Nat "MachineA011" 3).nodes,
      node.invocation_count = 0) ∧
    (StateMachine.new Nat "MachineA011" 3).execute 0 =
      (StateMachine.new Nat "MachineA011" 3).executeNoGuard 0 :=
  ⟨(c8_invocation_guard_dead Nat).1 _ (Reachable.new "MachineA011" 3),
   (c8_invocation_guard_dead Nat).2 _ (Reachable.new "MachineA011" 3) 0⟩

end Machine
